import Mathlib

/-!
Verification of the contract-calculator core (validator, global config,
profit engine, liquidation engine, position sizer, average-price tracker).

Numeric model: JavaScript numbers are modelled by `ℚ`.  A loosely-typed
input value (`string | number | null | undefined`) is modelled by
`Option ℚ`: `some q` is any value that `parseFloat`/`isFinite` accept
(a finite number), `none` is every invalid representation (empty string,
`null`, `undefined`, non-numeric text, `NaN`).  For the liquidation
engine's `leverage` argument the distinction between `null` and
`undefined` is observable (raw `<`/`>` comparisons coerce them
differently), so that argument is modelled by the finer type `JsVal`.
-/

/-! ## Validator (src/validator.js) -/

/-- `isValidNumber(v)`: non-empty, non-null, parses to a finite number. -/
def isValidNumber (v : Option ℚ) : Bool :=
  v.isSome

/-- `isEmpty(v)`: `''`, `null` or `undefined` (all collapse to `none`). -/
def isEmptyVal (v : Option ℚ) : Bool :=
  v.isNone

/-- `isPositive(v)`: valid and strictly positive. -/
def isPositive (v : Option ℚ) : Bool :=
  match v with
  | some q => decide (0 < q)
  | none => false

/-- `isNonNegative(v)`: valid and `≥ 0`. -/
def isNonNegative (v : Option ℚ) : Bool :=
  match v with
  | some q => decide (0 ≤ q)
  | none => false

/-- `isExtremeValue(v)`: valid and `|v| > 1e15` (invalid values are not extreme). -/
def isExtremeValue (v : Option ℚ) : Bool :=
  match v with
  | some q => decide ((10 : ℚ) ^ 15 < |q|)
  | none => false

/-- `validateRequiredFields(fields)`: first empty/invalid field yields an error
naming that field.  (In the model an un-parseable value and an empty value are
both `none`, so the two JS messages collapse to one.) -/
def validateRequiredFields : List (String × Option ℚ) → Except String Unit
  | [] => .ok ()
  | (name, v) :: rest =>
    if isEmptyVal v then .error ("please enter " ++ name)
    else validateRequiredFields rest

/-! ## JS value model for the raw leverage argument -/

/-- A JS value as seen by the liquidation engine's `leverage` parameter:
`null`, `undefined`, or a finite number. -/
inductive JsVal where
  | vnull
  | vundef
  | num (q : ℚ)
deriving DecidableEq

/-- ECMAScript `ToNumber` restricted to our values: `null ↦ 0`,
`undefined ↦ NaN` (modelled as `none`). -/
def JsVal.toNumber : JsVal → Option ℚ
  | .vnull => some 0
  | .vundef => none
  | .num q => some q

/-- JS abstract relational comparison `v < b`: `NaN` compares false. -/
def jsLt (v : JsVal) (b : ℚ) : Bool :=
  match v.toNumber with
  | none => false
  | some a => decide (a < b)

/-- JS abstract relational comparison `v > b`: `NaN` compares false. -/
def jsGt (v : JsVal) (b : ℚ) : Bool :=
  match v.toNumber with
  | none => false
  | some a => decide (b < a)

/-- `validator.isValidNumber` on a raw JS value: only finite numbers pass
(`null` fails the `!== null` test, `undefined` fails `!== undefined`). -/
def JsVal.isValidNumber : JsVal → Bool
  | .num _ => true
  | _ => false

/-- `validator.isPositive` on a raw JS value. -/
def JsVal.isPositive : JsVal → Bool
  | .num q => decide (0 < q)
  | _ => false

/-- `parseFloat(v) || 0`: `NaN` (from `null`/`undefined`) becomes `0`;
a numeric `0` also yields `0`, which coincides. -/
def jsNumOr0 : JsVal → ℚ
  | .num q => q
  | _ => 0

/-! ## GlobalConfig (src/unnamed/part_000, config.js) -/

/-- Trading direction enum; `Direction.LONG = 'long'`, `Direction.SHORT = 'short'`. -/
inductive Direction where
  | long
  | short
deriving DecidableEq

/-- A value carried by a config-change notification (`direction` sends the
direction string, the fee setters send the stored numeric rate). -/
inductive CVal where
  | str (s : String)
  | num (q : ℚ)
deriving DecidableEq

/-- A registered config listener.  Its only observable behaviour inside the
config module is whether the callback throws on a given `(key, value)` pair
(the exception is caught and logged by `notifyListeners`); any other side
effect is outside this model. -/
structure Listener where
  raises : String → CVal → Bool

/-- The observable outcome of one `notifyListeners` run: the invocations
performed, in order, as `(listener index, key, value)` triples, and the
indices of the listeners whose exception was caught and logged. -/
structure NotifyTrace where
  calls : List (ℕ × String × CVal)
  caught : List ℕ
deriving DecidableEq

/-- The `forEach` loop of `notifyListeners`, with the running listener index
made explicit: each listener is invoked with `(key, value)`; if it raises, the
exception is caught (recorded in `caught`) and the loop continues. -/
def notifyFrom (key : String) (value : CVal) : ℕ → List Listener → NotifyTrace
  | _, [] => ⟨[], []⟩
  | i, l :: rest =>
    let t := notifyFrom key value (i + 1) rest
    if l.raises key value then ⟨(i, key, value) :: t.calls, i :: t.caught⟩
    else ⟨(i, key, value) :: t.calls, t.caught⟩

/-- `notifyListeners(key, value)`: invoke every registered listener in
registration order; a throwing listener is caught and logged and does not
stop the loop.  The function itself never throws. -/
def notifyListeners (listeners : List Listener) (key : String) (value : CVal) : NotifyTrace :=
  notifyFrom key value 0 listeners

/-- The global config state (`config` object in config.js). -/
structure Config where
  direction : Direction
  makerFeeRate : ℚ
  takerFeeRate : ℚ
  listeners : List Listener := []

/-- The module's initial configuration: LONG, maker 0.0002, taker 0.0005. -/
def defaultConfig : Config :=
  { direction := Direction.long, makerFeeRate := 2 / 10000, takerFeeRate := 5 / 10000 }

/-- `setDirection(direction)`: silently rejects (log only, no state change, no
notification) unless the argument is exactly one of the two enum strings;
otherwise stores it and notifies `('direction', direction)`.  The returned
`Option NotifyTrace` is `none` when no notification was fired. -/
def setDirection (s : Config) (direction : String) : Config × Option NotifyTrace :=
  if direction ≠ "long" ∧ direction ≠ "short" then (s, none)
  else
    let d := if direction = "long" then Direction.long else Direction.short
    ({ s with direction := d }, some (notifyListeners s.listeners "direction" (CVal.str direction)))

/-- `setMakerFeeRate(rate)`: `rate` is a percentage; non-numeric (`none`) or
negative input is silently rejected with no notification; otherwise the stored
rate becomes `rate / 100` and `('makerFeeRate', newRate)` is notified. -/
def setMakerFeeRate (s : Config) (rate : Option ℚ) : Config × Option NotifyTrace :=
  match rate with
  | none => (s, none)
  | some rateValue =>
    if rateValue < 0 then (s, none)
    else
      let newRate := rateValue / 100
      ({ s with makerFeeRate := newRate },
        some (notifyListeners s.listeners "makerFeeRate" (CVal.num newRate)))

/-- `setTakerFeeRate(rate)`: symmetric to `setMakerFeeRate`. -/
def setTakerFeeRate (s : Config) (rate : Option ℚ) : Config × Option NotifyTrace :=
  match rate with
  | none => (s, none)
  | some rateValue =>
    if rateValue < 0 then (s, none)
    else
      let newRate := rateValue / 100
      ({ s with takerFeeRate := newRate },
        some (notifyListeners s.listeners "takerFeeRate" (CVal.num newRate)))

/-! ## ProfitEngine (src/unnamed/part_002, profitCalculator.js) -/

/-- Result object of the profit calculators. -/
structure ProfitResult where
  profit : ℚ
  profitRate : ℚ
  totalFee : ℚ
  openFee : ℚ
  closeFee : ℚ
deriving DecidableEq

/-- `calculateOpenFee(position, openPrice)` = `position * openPrice * makerRate`. -/
def calculateOpenFee (cfg : Config) (position openPrice : ℚ) : ℚ :=
  position * openPrice * cfg.makerFeeRate

/-- `calculateCloseFee(position, closePrice)` = `position * closePrice * takerRate`. -/
def calculateCloseFee (cfg : Config) (position closePrice : ℚ) : ℚ :=
  position * closePrice * cfg.takerFeeRate

/-- `calculateLongProfit(position, openPrice, currentPrice)`. -/
def calculateLongProfit (cfg : Config) (position openPrice currentPrice : ℚ) : ProfitResult :=
  let priceDiff := currentPrice - openPrice
  let grossProfit := position * priceDiff
  let openFee := calculateOpenFee cfg position openPrice
  let closeFee := calculateCloseFee cfg position currentPrice
  let totalFee := openFee + closeFee
  let netProfit := grossProfit - totalFee
  let cost := position * openPrice
  let profitRate := if 0 < cost then netProfit / cost else 0
  { profit := netProfit, profitRate := profitRate, totalFee := totalFee,
    openFee := openFee, closeFee := closeFee }

/-- `calculateShortProfit(position, openPrice, currentPrice)`. -/
def calculateShortProfit (cfg : Config) (position openPrice currentPrice : ℚ) : ProfitResult :=
  let priceDiff := openPrice - currentPrice
  let grossProfit := position * priceDiff
  let openFee := calculateOpenFee cfg position openPrice
  let closeFee := calculateCloseFee cfg position currentPrice
  let totalFee := openFee + closeFee
  let netProfit := grossProfit - totalFee
  let cost := position * openPrice
  let profitRate := if 0 < cost then netProfit / cost else 0
  { profit := netProfit, profitRate := profitRate, totalFee := totalFee,
    openFee := openFee, closeFee := closeFee }

/-- `calculateProfit(leverage, openPrice, closePrice, quantity)`: validates all
four fields (required, positive, non-extreme), then branches on the current
direction.  `Option.getD _ 0` models the `parseFloat` of a value already known
to be a valid number. -/
def calculateProfit (cfg : Config) (leverage openPrice closePrice quantity : Option ℚ) :
    Except String ProfitResult :=
  match validateRequiredFields
      [("leverage", leverage), ("openPrice", openPrice),
       ("closePrice", closePrice), ("quantity", quantity)] with
  | .error m => .error m
  | .ok _ =>
    if !(isPositive leverage) then .error "leverage must be positive"
    else if !(isPositive openPrice) then .error "openPrice must be positive"
    else if !(isPositive closePrice) then .error "closePrice must be positive"
    else if !(isPositive quantity) then .error "quantity must be positive"
    else if isExtremeValue leverage || isExtremeValue openPrice ||
        isExtremeValue closePrice || isExtremeValue quantity then
      .error "input out of range"
    else if cfg.direction = Direction.long then
      .ok (calculateLongProfit cfg (quantity.getD 0) (openPrice.getD 0) (closePrice.getD 0))
    else
      .ok (calculateShortProfit cfg (quantity.getD 0) (openPrice.getD 0) (closePrice.getD 0))

/-! ## LiquidationEngine (src/unnamed/part_001, liquidationCalculator.js) -/

/-- The triple returned by the two direction-specific liquidation helpers. -/
structure LiquidationParts where
  liquidationPrice : ℚ
  initialMargin : ℚ
  totalMargin : ℚ
deriving DecidableEq

/-- `calculateLongLiquidationPrice(leverage, openPrice, quantity, addMargin,
customInitialMargin)`: initial margin is the custom value when it is provided
and `> 0`, else `quantity * openPrice / leverage`; liquidation price is
`openPrice - totalMargin / quantity`. -/
def calculateLongLiquidationPrice (leverage openPrice quantity addMargin : ℚ)
    (customInitialMargin : Option ℚ) : LiquidationParts :=
  let initialMargin :=
    match customInitialMargin with
    | some c => if 0 < c then c else quantity * openPrice / leverage
    | none => quantity * openPrice / leverage
  let totalMargin := initialMargin + addMargin
  let liquidationPrice := openPrice - totalMargin / quantity
  { liquidationPrice := liquidationPrice, initialMargin := initialMargin,
    totalMargin := totalMargin }

/-- `calculateShortLiquidationPrice(...)`: same margins, liquidation price is
`openPrice + totalMargin / quantity`. -/
def calculateShortLiquidationPrice (leverage openPrice quantity addMargin : ℚ)
    (customInitialMargin : Option ℚ) : LiquidationParts :=
  let initialMargin :=
    match customInitialMargin with
    | some c => if 0 < c then c else quantity * openPrice / leverage
    | none => quantity * openPrice / leverage
  let totalMargin := initialMargin + addMargin
  let liquidationPrice := openPrice + totalMargin / quantity
  { liquidationPrice := liquidationPrice, initialMargin := initialMargin,
    totalMargin := totalMargin }

/-- Result object of `calculateLiquidation`. -/
structure LiquidationResult where
  liquidationPrice : ℚ
  initialMargin : ℚ
  totalMargin : ℚ
  isWarning : Bool
deriving DecidableEq

/-- `calculateLiquidation(leverage, openPrice, quantity, addMargin,
customInitialMargin)`: required/positive/non-negative/extreme validation;
leverage is only validated when no positive custom initial margin is given
(the out-of-range leverage `console.warn` has no observable effect and is
omitted); the computation receives `parseFloat(leverage) || 0`; a non-positive
computed price raises; `isWarning` is computed from the RAW leverage argument
with JS comparison semantics. -/
def calculateLiquidation (cfg : Config) (leverage : JsVal)
    (openPrice quantity addMargin customInitialMargin : Option ℚ) :
    Except String LiquidationResult :=
  match validateRequiredFields [("openPrice", openPrice), ("quantity", quantity)] with
  | .error m => .error m
  | .ok _ =>
    let needLeverage : Bool :=
      match customInitialMargin with
      | none => true
      | some c => decide (c ≤ 0)
    if needLeverage && !(leverage.isValidNumber && leverage.isPositive) then
      .error "please enter leverage or initial margin"
    else if !(isPositive openPrice) then .error "openPrice must be positive"
    else if !(isPositive quantity) then .error "quantity must be positive"
    else if !(isNonNegative addMargin) then .error "addMargin cannot be negative"
    else if customInitialMargin.isSome && !(isNonNegative customInitialMargin) then
      .error "initial margin cannot be negative"
    else if isExtremeValue openPrice || isExtremeValue quantity ||
        isExtremeValue addMargin ||
        (customInitialMargin.isSome && isExtremeValue customInitialMargin) then
      .error "input out of range"
    else
      let parts :=
        if cfg.direction = Direction.long then
          calculateLongLiquidationPrice (jsNumOr0 leverage) (openPrice.getD 0)
            (quantity.getD 0) (addMargin.getD 0) customInitialMargin
        else
          calculateShortLiquidationPrice (jsNumOr0 leverage) (openPrice.getD 0)
            (quantity.getD 0) (addMargin.getD 0) customInitialMargin
      if parts.liquidationPrice ≤ 0 then .error "invalid result, check inputs"
      else
        .ok { liquidationPrice := parts.liquidationPrice,
              initialMargin := parts.initialMargin,
              totalMargin := parts.totalMargin,
              isWarning := jsLt leverage 1 || jsGt leverage 125 }

/-! ## PositionSizer (src/positionCalculator.js) -/

/-- Result object of `calculatePosition`; the amount-mode object carries
`quantity`/`stopLossAmount`, the percent-mode object carries
`positionValue`/`stopLossPercent` (absent JS keys are `none`). -/
structure PositionResult where
  quantity : Option ℚ := none
  positionValue : Option ℚ := none
  stopLossAmount : Option ℚ := none
  stopLossPercent : Option ℚ := none
  calculationType : String
deriving DecidableEq

/-- `calculatePositionByAmount(plannedLoss, stopLossAmount)`:
`quantity = plannedLoss / stopLossAmount`, tagged `'amount'`. -/
def calculatePositionByAmount (plannedLoss stopLossAmount : ℚ) : PositionResult :=
  { quantity := some (plannedLoss / stopLossAmount),
    stopLossAmount := some stopLossAmount,
    calculationType := "amount" }

/-- `calculatePositionByPercent(plannedLoss, stopLossPercent)`:
`positionValue = plannedLoss / (stopLossPercent / 100)`, tagged `'percent'`. -/
def calculatePositionByPercent (plannedLoss stopLossPercent : ℚ) : PositionResult :=
  let percentDecimal := stopLossPercent / 100
  { positionValue := some (plannedLoss / percentDecimal),
    stopLossPercent := some stopLossPercent,
    calculationType := "percent" }

/-- `calculatePosition(plannedLoss, stopLossAmount, stopLossPercent)`:
validates `plannedLoss`; amount mode is chosen whenever `stopLossAmount` is a
valid number (checked first), else percent mode whenever `stopLossPercent` is,
else the call raises. -/
def calculatePosition (plannedLoss stopLossAmount stopLossPercent : Option ℚ) :
    Except String PositionResult :=
  match validateRequiredFields [("plannedLoss", plannedLoss)] with
  | .error m => .error m
  | .ok _ =>
    if !(isPositive plannedLoss) then .error "plannedLoss must be positive"
    else if isExtremeValue plannedLoss then .error "plannedLoss out of range"
    else
      match stopLossAmount with
      | some amount =>
        if !(isPositive (some amount)) then .error "stop loss amount must be positive"
        else if isExtremeValue (some amount) then .error "stop loss amount out of range"
        else .ok (calculatePositionByAmount (plannedLoss.getD 0) amount)
      | none =>
        match stopLossPercent with
        | some percent =>
          if !(isPositive (some percent)) then .error "stop loss percent must be positive"
          else if decide (100 < percent) then .error "stop loss percent cannot exceed 100"
          else .ok (calculatePositionByPercent (plannedLoss.getD 0) percent)
        | none => .error "please enter stop loss amount or percent"

/-! ## AveragePriceTracker (src/averagePriceCalculator.js) -/

/-- One open-position fill record; `id` is the `Date.now()` timestamp (in
milliseconds) at creation, passed in explicitly as `now`. -/
structure FillRecord where
  id : ℕ
  quantity : ℚ
  price : ℚ
  fee : ℚ
  actualCost : ℚ
  totalCost : ℚ
deriving DecidableEq

/-- `addPosition(quantity, price)`: validates both fields (required, positive,
non-extreme), snapshots the current maker fee rate, builds the record with
`fee = price * makerRate`, `actualCost = price + fee`,
`totalCost = quantity * actualCost`, appends it to the collection and returns
it.  `now` models the `Date.now()` call that stamps `id`. -/
def addPosition (cfg : Config) (now : ℕ) (positions : List FillRecord)
    (quantity price : Option ℚ) : Except String (List FillRecord × FillRecord) :=
  match validateRequiredFields [("quantity", quantity), ("price", price)] with
  | .error m => .error m
  | .ok _ =>
    if !(isPositive quantity) then .error "quantity must be positive"
    else if !(isPositive price) then .error "price must be positive"
    else if isExtremeValue quantity || isExtremeValue price then
      .error "input out of range"
    else
      let makerRate := cfg.makerFeeRate
      let fee := price.getD 0 * makerRate
      let actualCost := price.getD 0 + fee
      let pos : FillRecord :=
        { id := now, quantity := quantity.getD 0, price := price.getD 0,
          fee := fee, actualCost := actualCost,
          totalCost := quantity.getD 0 * actualCost }
      .ok (positions ++ [pos], pos)

/-- `removePosition(id)`: keep every record whose id differs. -/
def removePosition (positions : List FillRecord) (id : ℕ) : List FillRecord :=
  positions.filter (fun p => p.id != id)

/-- `clearPositions()`: the emptied collection. -/
def clearPositions : List FillRecord := []

/-- Result object of `calculateAveragePrice`. -/
structure AverageResult where
  averagePrice : ℚ
  totalQuantity : ℚ
  totalCost : ℚ
deriving DecidableEq

/-- `calculateAveragePrice()`: raises on an empty collection; otherwise sums
quantities and total costs and divides (with the defensive `totalQuantity > 0`
guard). -/
def calculateAveragePrice (positions : List FillRecord) : Except String AverageResult :=
  if positions.isEmpty then .error "no records"
  else
    let totalQuantity := (positions.map FillRecord.quantity).sum
    let totalCost := (positions.map FillRecord.totalCost).sum
    let averagePrice := if 0 < totalQuantity then totalCost / totalQuantity else 0
    .ok { averagePrice := averagePrice, totalQuantity := totalQuantity,
          totalCost := totalCost }

/-- The `makerFeeRate` config-listener body in `initAveragePriceCalculator`:
the collection is emptied and every old record is re-added from its
`(quantity, price)` via `addPosition` under the new rate; a record whose
re-addition throws is caught, logged and dropped, and the loop continues.
`clock i` models the `Date.now()` value observed by the `i`-th re-addition. -/
def recomputeForRate (cfg : Config) (clock : ℕ → ℕ) : List FillRecord → List FillRecord
  | [] => []
  | pos :: rest =>
    match addPosition cfg (clock 0) [] (some pos.quantity) (some pos.price) with
    | .ok pr => pr.2 :: recomputeForRate cfg (fun i => clock (i + 1)) rest
    | .error _ => recomputeForRate cfg (fun i => clock (i + 1)) rest

/-- The record that re-adding a stored `(quantity, price)` pair under the
configuration `cfg` at time `t` produces (the shape of `addPosition`'s
output record). -/
def recomputedRecord (cfg : Config) (t : ℕ) (r : FillRecord) : FillRecord :=
  { id := t, quantity := r.quantity, price := r.price,
    fee := r.price * cfg.makerFeeRate,
    actualCost := r.price + r.price * cfg.makerFeeRate,
    totalCost := r.quantity * (r.price + r.price * cfg.makerFeeRate) }

/-! ## Helper lemmas -/

lemma isPositive_some_true {q : ℚ} (h : 0 < q) : isPositive (some q) = true := by
  simp [isPositive, h]

lemma isNonNegative_some_true {q : ℚ} (h : 0 ≤ q) : isNonNegative (some q) = true := by
  simp [isNonNegative, h]

lemma isExtremeValue_some_false {q : ℚ} (h : |q| ≤ 10 ^ 15) :
    isExtremeValue (some q) = false := by
  simp [isExtremeValue, not_lt.mpr h]

/-- C1: for valid, positive, non-extreme `(leverage, openPrice, closePrice,
quantity)`, `calculateProfit` returns, for the LONG direction,
`profit = quantity * (closePrice - openPrice) - fees` and, for SHORT,
`profit = quantity * (openPrice - closePrice) - fees`, where
`fees = quantity * openPrice * makerFeeRate + quantity * closePrice *
takerFeeRate` with both rates read from the config at call time; the result
carries `openFee`, `closeFee`, `totalFee = openFee + closeFee` and
`profitRate = profit / (quantity * openPrice)`. -/
theorem calculateProfit_formula (cfg : Config) (lv op cp q : ℚ)
    (hlv : 0 < lv) (hop : 0 < op) (hcp : 0 < cp) (hq : 0 < q)
    (elv : |lv| ≤ 10 ^ 15) (eop : |op| ≤ 10 ^ 15) (ecp : |cp| ≤ 10 ^ 15)
    (eqy : |q| ≤ 10 ^ 15) :
    calculateProfit cfg (some lv) (some op) (some cp) (some q) = Except.ok
      { profit := (if cfg.direction = Direction.long then q * (cp - op) else q * (op - cp))
            - (q * op * cfg.makerFeeRate + q * cp * cfg.takerFeeRate),
        profitRate := ((if cfg.direction = Direction.long then q * (cp - op) else q * (op - cp))
            - (q * op * cfg.makerFeeRate + q * cp * cfg.takerFeeRate)) / (q * op),
        totalFee := q * op * cfg.makerFeeRate + q * cp * cfg.takerFeeRate,
        openFee := q * op * cfg.makerFeeRate,
        closeFee := q * cp * cfg.takerFeeRate } := by
  have hcost : 0 < q * op := mul_pos hq hop
  by_cases hdir : cfg.direction = Direction.long <;>
    simp [calculateProfit, validateRequiredFields, isEmptyVal,
      isPositive_some_true hlv, isPositive_some_true hop, isPositive_some_true hcp,
      isPositive_some_true hq, isExtremeValue_some_false elv,
      isExtremeValue_some_false eop, isExtremeValue_some_false ecp,
      isExtremeValue_some_false eqy, hdir, calculateLongProfit, calculateShortProfit,
      calculateOpenFee, calculateCloseFee, if_pos hcost]

/-- Witness for C1 at the spec's concrete scenario
(`calculateProfit(10, 100, 110, 2)` under the default configuration). -/
theorem calculateProfit_formula_witness :
    calculateProfit defaultConfig (some 10) (some 100) (some 110) (some 2) = Except.ok
      { profit := (if defaultConfig.direction = Direction.long
              then 2 * (110 - 100) else 2 * (100 - 110))
            - (2 * 100 * defaultConfig.makerFeeRate + 2 * 110 * defaultConfig.takerFeeRate),
        profitRate := ((if defaultConfig.direction = Direction.long
              then 2 * (110 - 100) else 2 * (100 - 110))
            - (2 * 100 * defaultConfig.makerFeeRate + 2 * 110 * defaultConfig.takerFeeRate))
            / (2 * 100),
        totalFee := 2 * 100 * defaultConfig.makerFeeRate + 2 * 110 * defaultConfig.takerFeeRate,
        openFee := 2 * 100 * defaultConfig.makerFeeRate,
        closeFee := 2 * 110 * defaultConfig.takerFeeRate } :=
  calculateProfit_formula defaultConfig 10 100 110 2 (by norm_num) (by norm_num)
    (by norm_num) (by norm_num) (by rw [abs_of_pos] <;> norm_num)
    (by rw [abs_of_pos] <;> norm_num) (by rw [abs_of_pos] <;> norm_num)
    (by rw [abs_of_pos] <;> norm_num)

/-- C2: for a validated `calculateLiquidation` call, `initialMargin` is the
custom initial margin when that argument is provided and `> 0`, and
`quantity * openPrice / leverage` otherwise; `totalMargin = initialMargin +
addMargin`; the liquidation price is `openPrice - totalMargin / quantity`
under LONG and `openPrice + totalMargin / quantity` under SHORT; and when the
computed price is not strictly positive the call raises instead of returning
(in the `ℚ` model every value is finite, so the finiteness part of the
post-check is vacuous). -/
theorem calculateLiquidation_spec (cfg : Config) (lev : JsVal) (op q am l c : ℚ)
    (hop : 0 < op) (hq : 0 < q) (ham : 0 ≤ am)
    (eop : |op| ≤ 10 ^ 15) (eqy : |q| ≤ 10 ^ 15) (eam : |am| ≤ 10 ^ 15)
    (hl : 0 < l) (hc : 0 < c) (ec : |c| ≤ 10 ^ 15) :
    (calculateLiquidation cfg lev (some op) (some q) (some am) (some c) =
      (if (if cfg.direction = Direction.long then op - (c + am) / q else op + (c + am) / q) ≤ 0
       then Except.error "invalid result, check inputs"
       else Except.ok
        { liquidationPrice :=
            if cfg.direction = Direction.long then op - (c + am) / q else op + (c + am) / q,
          initialMargin := c, totalMargin := c + am,
          isWarning := jsLt lev 1 || jsGt lev 125 })) ∧
    (calculateLiquidation cfg (JsVal.num l) (some op) (some q) (some am) none =
      (if (if cfg.direction = Direction.long then op - (q * op / l + am) / q
           else op + (q * op / l + am) / q) ≤ 0
       then Except.error "invalid result, check inputs"
       else Except.ok
        { liquidationPrice :=
            if cfg.direction = Direction.long then op - (q * op / l + am) / q
            else op + (q * op / l + am) / q,
          initialMargin := q * op / l, totalMargin := q * op / l + am,
          isWarning := jsLt (JsVal.num l) 1 || jsGt (JsVal.num l) 125 })) ∧
    (calculateLiquidation cfg (JsVal.num l) (some op) (some q) (some am) (some 0) =
      (if (if cfg.direction = Direction.long then op - (q * op / l + am) / q
           else op + (q * op / l + am) / q) ≤ 0
       then Except.error "invalid result, check inputs"
       else Except.ok
        { liquidationPrice :=
            if cfg.direction = Direction.long then op - (q * op / l + am) / q
            else op + (q * op / l + am) / q,
          initialMargin := q * op / l, totalMargin := q * op / l + am,
          isWarning := jsLt (JsVal.num l) 1 || jsGt (JsVal.num l) 125 })) := by
  have hnc : decide (c ≤ 0) = false := decide_eq_false (not_le.mpr hc)
  have hlpos : JsVal.isPositive (JsVal.num l) = true := by
    simp [JsVal.isPositive, hl]
  have hzero : isExtremeValue (some (0 : ℚ)) = false := by
    simp [isExtremeValue]
  have hznn : isNonNegative (some (0 : ℚ)) = true := by
    simp [isNonNegative]
  refine ⟨?_, ?_, ?_⟩ <;>
    by_cases hdir : cfg.direction = Direction.long <;>
      simp [calculateLiquidation, validateRequiredFields, isEmptyVal,
        isPositive_some_true hop, isPositive_some_true hq,
        isNonNegative_some_true ham, isNonNegative_some_true hc.le,
        isExtremeValue_some_false eop, isExtremeValue_some_false eqy,
        isExtremeValue_some_false eam, isExtremeValue_some_false ec,
        hnc, hlpos, hzero, hznn, hdir, JsVal.isValidNumber, jsNumOr0,
        calculateLongLiquidationPrice, calculateShortLiquidationPrice,
        if_pos hc, lt_irrefl]

/-- Witness for C2 at the spec's concrete scenario
(`calculateLiquidation(10, 100, 1, 0)`, LONG, no custom margin). -/
theorem calculateLiquidation_spec_witness :
    calculateLiquidation defaultConfig (JsVal.num 10) (some 100) (some 1) (some 0) none =
      (if (if defaultConfig.direction = Direction.long then (100 : ℚ) - (1 * 100 / 10 + 0) / 1
           else (100 : ℚ) + (1 * 100 / 10 + 0) / 1) ≤ 0
       then Except.error "invalid result, check inputs"
       else Except.ok
        { liquidationPrice :=
            if defaultConfig.direction = Direction.long then (100 : ℚ) - (1 * 100 / 10 + 0) / 1
            else (100 : ℚ) + (1 * 100 / 10 + 0) / 1,
          initialMargin := 1 * 100 / 10, totalMargin := 1 * 100 / 10 + 0,
          isWarning := jsLt (JsVal.num 10) 1 || jsGt (JsVal.num 10) 125 }) :=
  (calculateLiquidation_spec defaultConfig (JsVal.num 10) 100 1 0 10 10
    (by norm_num) (by norm_num) (by norm_num)
    (by rw [abs_of_pos] <;> norm_num) (by rw [abs_of_pos] <;> norm_num)
    (by norm_num) (by norm_num) (by norm_num)
    (by rw [abs_of_pos] <;> norm_num)).2.1

/-- C3: with a valid, positive, non-extreme `plannedLoss`, `calculatePosition`
selects amount mode whenever `stopLossAmount` is a valid number (requiring it
to be `> 0` and non-extreme, and returning `quantity = plannedLoss /
stopLossAmount` tagged `'amount'`), otherwise percent mode whenever
`stopLossPercent` is a valid number (requiring `0 < percent ≤ 100` and
returning `positionValue = plannedLoss / (percent / 100)` tagged `'percent'`),
and otherwise raises; every successful result carries exactly one of
`quantity` / `positionValue`; and `calculatePosition(100, 0, null)` raises. -/
theorem calculatePosition_spec (pl : ℚ) (slA slP : Option ℚ)
    (hpl : 0 < pl) (epl : |pl| ≤ 10 ^ 15) :
    (calculatePosition (some pl) slA slP =
      (match slA with
       | some a =>
         if a ≤ 0 then Except.error "stop loss amount must be positive"
         else if (10 : ℚ) ^ 15 < |a| then Except.error "stop loss amount out of range"
         else Except.ok { quantity := some (pl / a), positionValue := none,
                          stopLossAmount := some a, stopLossPercent := none,
                          calculationType := "amount" }
       | none =>
         match slP with
         | some p =>
           if p ≤ 0 then Except.error "stop loss percent must be positive"
           else if 100 < p then Except.error "stop loss percent cannot exceed 100"
           else Except.ok { quantity := none, positionValue := some (pl / (p / 100)),
                            stopLossAmount := none, stopLossPercent := some p,
                            calculationType := "percent" }
         | none => Except.error "please enter stop loss amount or percent")) ∧
    (∀ r, calculatePosition (some pl) slA slP = Except.ok r →
      (r.quantity.isSome ∧ r.positionValue = none) ∨
      (r.quantity = none ∧ r.positionValue.isSome)) ∧
    calculatePosition (some 100) (some 0) none =
      Except.error "stop loss amount must be positive" := by
  have hchar : calculatePosition (some pl) slA slP =
      (match slA with
       | some a =>
         if a ≤ 0 then Except.error "stop loss amount must be positive"
         else if (10 : ℚ) ^ 15 < |a| then Except.error "stop loss amount out of range"
         else Except.ok { quantity := some (pl / a), positionValue := none,
                          stopLossAmount := some a, stopLossPercent := none,
                          calculationType := "amount" }
       | none =>
         match slP with
         | some p =>
           if p ≤ 0 then Except.error "stop loss percent must be positive"
           else if 100 < p then Except.error "stop loss percent cannot exceed 100"
           else Except.ok { quantity := none, positionValue := some (pl / (p / 100)),
                            stopLossAmount := none, stopLossPercent := some p,
                            calculationType := "percent" }
         | none => Except.error "please enter stop loss amount or percent") := by
    cases slA with
    | some a =>
      by_cases ha : 0 < a
      · by_cases hea : (10 : ℚ) ^ 15 < |a|
        · simp [calculatePosition, validateRequiredFields, isEmptyVal, isPositive,
            isExtremeValue, hpl, not_lt.mpr epl, ha, hea, not_le.mpr ha,
            calculatePositionByAmount]
        · simp [calculatePosition, validateRequiredFields, isEmptyVal, isPositive,
            isExtremeValue, hpl, not_lt.mpr epl, ha, hea, not_le.mpr ha,
            calculatePositionByAmount]
      · simp [calculatePosition, validateRequiredFields, isEmptyVal, isPositive,
          isExtremeValue, hpl, not_lt.mpr epl, ha, not_lt.mp ha]
    | none =>
      cases slP with
      | some p =>
        by_cases hp : 0 < p
        · by_cases hp2 : 100 < p
          · simp [calculatePosition, validateRequiredFields, isEmptyVal, isPositive,
              isExtremeValue, hpl, not_lt.mpr epl, hp, hp2, not_le.mpr hp,
              calculatePositionByPercent]
          · simp [calculatePosition, validateRequiredFields, isEmptyVal, isPositive,
              isExtremeValue, hpl, not_lt.mpr epl, hp, hp2, not_le.mpr hp,
              calculatePositionByPercent]
        · simp [calculatePosition, validateRequiredFields, isEmptyVal, isPositive,
            isExtremeValue, hpl, not_lt.mpr epl, hp, not_lt.mp hp]
      | none =>
        simp [calculatePosition, validateRequiredFields, isEmptyVal, isPositive,
          isExtremeValue, hpl, not_lt.mpr epl]
  refine ⟨hchar, ?_, ?_⟩
  · intro r h
    rw [hchar] at h
    cases slA with
    | some a =>
      simp only at h
      split_ifs at h with h1 h2
      injection h with h
      subst h
      exact Or.inl ⟨rfl, rfl⟩
    | none =>
      cases slP with
      | some p =>
        simp only at h
        split_ifs at h with h1 h2
        injection h with h
        subst h
        exact Or.inr ⟨rfl, rfl⟩
      | none => exact absurd h (by simp)
  · rfl

/-- Witness for C3 at the spec's boundary case
(`calculatePosition(100, 0, null)` must raise). -/
theorem calculatePosition_spec_witness :
    calculatePosition (some 100) (some 0) none =
      Except.error "stop loss amount must be positive" :=
  (calculatePosition_spec 100 (some 0) none (by norm_num)
    (by rw [abs_of_pos] <;> norm_num)).2.2

lemma addPosition_ok (cfg : Config) (now : ℕ) (ps : List FillRecord) (q p : ℚ)
    (hq : 0 < q) (ebq : |q| ≤ 10 ^ 15) (hp : 0 < p) (ebp : |p| ≤ 10 ^ 15) :
    addPosition cfg now ps (some q) (some p) = Except.ok
      (ps ++ [{ id := now, quantity := q, price := p, fee := p * cfg.makerFeeRate,
                actualCost := p + p * cfg.makerFeeRate,
                totalCost := q * (p + p * cfg.makerFeeRate) }],
       { id := now, quantity := q, price := p, fee := p * cfg.makerFeeRate,
         actualCost := p + p * cfg.makerFeeRate,
         totalCost := q * (p + p * cfg.makerFeeRate) }) := by
  simp [addPosition, validateRequiredFields, isEmptyVal, isPositive, isExtremeValue,
    hq, hp, not_lt.mpr ebq, not_lt.mpr ebp]

/-- C4: `calculateAveragePrice` raises exactly on the empty collection (so it
always raises right after `clearPositions`); on a non-empty collection of
records with positive quantities (the invariant `addPosition` establishes) it
returns the sum of quantities, the sum of `totalCost` fields and their
quotient; and a record created by `addPosition(quantity, price)` stores
`fee = price * makerFeeRate` at add time, `actualCost = price + fee` and
`totalCost = quantity * actualCost`. -/
theorem calculateAveragePrice_spec (cfg : Config) (now : ℕ) (ps : List FillRecord)
    (q p : ℚ) (hne : ps ≠ []) (hpos : ∀ r ∈ ps, 0 < r.quantity)
    (hq : 0 < q) (ebq : |q| ≤ 10 ^ 15) (hp : 0 < p) (ebp : |p| ≤ 10 ^ 15) :
    (∀ l : List FillRecord, (∃ m, calculateAveragePrice l = Except.error m) ↔ l = []) ∧
    calculateAveragePrice clearPositions = Except.error "no records" ∧
    calculateAveragePrice ps = Except.ok
      { averagePrice := (ps.map FillRecord.totalCost).sum / (ps.map FillRecord.quantity).sum,
        totalQuantity := (ps.map FillRecord.quantity).sum,
        totalCost := (ps.map FillRecord.totalCost).sum } ∧
    addPosition cfg now ps (some q) (some p) = Except.ok
      (ps ++ [{ id := now, quantity := q, price := p, fee := p * cfg.makerFeeRate,
                actualCost := p + p * cfg.makerFeeRate,
                totalCost := q * (p + p * cfg.makerFeeRate) }],
       { id := now, quantity := q, price := p, fee := p * cfg.makerFeeRate,
         actualCost := p + p * cfg.makerFeeRate,
         totalCost := q * (p + p * cfg.makerFeeRate) }) := by
  have htq : 0 < (ps.map FillRecord.quantity).sum := by
    apply List.sum_pos
    · intro x hx
      obtain ⟨r, hr, rfl⟩ := List.mem_map.mp hx
      exact hpos r hr
    · simpa using hne
  refine ⟨?_, rfl, ?_, addPosition_ok cfg now ps q p hq ebq hp ebp⟩
  · intro l
    cases l with
    | nil => simp [calculateAveragePrice]
    | cons a rest => simp [calculateAveragePrice]
  · simp [calculateAveragePrice, hne, htq]

/-- Witness for C4 on a concrete one-record collection. -/
theorem calculateAveragePrice_spec_witness :
    calculateAveragePrice
        [{ id := 1, quantity := 1, price := 100, fee := 0, actualCost := 100,
           totalCost := 100 }] = Except.ok
      { averagePrice :=
          (([{ id := 1, quantity := 1, price := 100, fee := 0, actualCost := 100,
               totalCost := 100 }] : List FillRecord).map FillRecord.totalCost).sum /
          (([{ id := 1, quantity := 1, price := 100, fee := 0, actualCost := 100,
               totalCost := 100 }] : List FillRecord).map FillRecord.quantity).sum,
        totalQuantity :=
          (([{ id := 1, quantity := 1, price := 100, fee := 0, actualCost := 100,
               totalCost := 100 }] : List FillRecord).map FillRecord.quantity).sum,
        totalCost :=
          (([{ id := 1, quantity := 1, price := 100, fee := 0, actualCost := 100,
               totalCost := 100 }] : List FillRecord).map FillRecord.totalCost).sum } :=
  (calculateAveragePrice_spec defaultConfig 5
    [{ id := 1, quantity := 1, price := 100, fee := 0, actualCost := 100,
       totalCost := 100 }] 1 200 (by simp)
    (by intro r hr; simp at hr; subst hr; norm_num)
    (by norm_num) (by rw [abs_of_pos] <;> norm_num)
    (by norm_num) (by rw [abs_of_pos] <;> norm_num)).2.2.1

lemma recomputeForRate_eq_zipWith (cfg : Config) (ps : List FillRecord) :
    ∀ clock : ℕ → ℕ,
      (∀ r ∈ ps, 0 < r.quantity ∧ |r.quantity| ≤ 10 ^ 15 ∧
        0 < r.price ∧ |r.price| ≤ 10 ^ 15) →
      recomputeForRate cfg clock ps =
        List.zipWith (recomputedRecord cfg) ((List.range ps.length).map clock) ps := by
  induction ps with
  | nil => intro clock hval; rfl
  | cons pos rest ih =>
    intro clock hval
    obtain ⟨h1, h2, h3, h4⟩ := hval pos (by simp)
    have heq := addPosition_ok cfg (clock 0) [] pos.quantity pos.price h1 h2 h3 h4
    have hrest := ih (fun i => clock (i + 1)) (fun r hr => hval r (List.mem_cons_of_mem _ hr))
    simp only [recomputeForRate, heq, List.length_cons, List.range_succ_eq_map,
      List.map_cons, List.map_map, List.zipWith_cons_cons, hrest]
    rfl

/-- C5: when the maker fee rate changes, the `makerFeeRate` listener rebuilds
the whole collection: under the invariant that every stored record has
positive, non-extreme `(quantity, price)`, the rebuilt collection has the same
length and, position by position, keeps `quantity` and `price` while `fee`,
`actualCost` and `totalCost` are recomputed from them under the
configuration's (new) rate; and a record whose re-addition fails validation is
dropped while the remaining records are still recomputed. -/
theorem recomputeForRate_spec (cfg : Config) (clock : ℕ → ℕ) (ps : List FillRecord)
    (bad : FillRecord) (hbad : bad.quantity ≤ 0)
    (hval : ∀ r ∈ ps, 0 < r.quantity ∧ |r.quantity| ≤ 10 ^ 15 ∧
      0 < r.price ∧ |r.price| ≤ 10 ^ 15) :
    recomputeForRate cfg clock ps =
      List.zipWith (recomputedRecord cfg) ((List.range ps.length).map clock) ps ∧
    (recomputeForRate cfg clock ps).length = ps.length ∧
    (∀ i (hi : i < ps.length) (hj : i < (recomputeForRate cfg clock ps).length),
      (recomputeForRate cfg clock ps).get ⟨i, hj⟩ =
        { id := clock i,
          quantity := (ps.get ⟨i, hi⟩).quantity,
          price := (ps.get ⟨i, hi⟩).price,
          fee := (ps.get ⟨i, hi⟩).price * cfg.makerFeeRate,
          actualCost := (ps.get ⟨i, hi⟩).price + (ps.get ⟨i, hi⟩).price * cfg.makerFeeRate,
          totalCost := (ps.get ⟨i, hi⟩).quantity *
            ((ps.get ⟨i, hi⟩).price + (ps.get ⟨i, hi⟩).price * cfg.makerFeeRate) }) ∧
    recomputeForRate cfg clock (bad :: ps) =
      recomputeForRate cfg (fun i => clock (i + 1)) ps := by
  have hmain := recomputeForRate_eq_zipWith cfg ps clock hval
  have hlen : (recomputeForRate cfg clock ps).length = ps.length := by
    simp [hmain]
  refine ⟨hmain, hlen, ?_, ?_⟩
  · intro i hi hj
    rw [List.get_of_eq hmain ⟨i, hj⟩]
    simp only [List.get_eq_getElem, Fin.coe_cast, List.getElem_zipWith,
      List.getElem_map, List.getElem_range]
    rfl
  · have hfail : addPosition cfg (clock 0) [] (some bad.quantity) (some bad.price) =
        Except.error "quantity must be positive" := by
      simp [addPosition, validateRequiredFields, isEmptyVal, isPositive,
        not_lt.mpr hbad]
    simp only [recomputeForRate, hfail]

/-- Witness for C5 on a concrete one-record collection with a concrete clock. -/
theorem recomputeForRate_spec_witness :
    recomputeForRate defaultConfig (fun i => 100 + i) [{ id := 1, quantity := 1, price := 100, fee := 0, actualCost := 100, totalCost := 100 }] =
      List.zipWith (recomputedRecord defaultConfig)
        ((List.range ([({ id := 1, quantity := 1, price := 100, fee := 0, actualCost := 100, totalCost := 100 } : FillRecord)]).length).map (fun i => 100 + i))
        [{ id := 1, quantity := 1, price := 100, fee := 0, actualCost := 100, totalCost := 100 }] :=
  (recomputeForRate_spec defaultConfig (fun i => 100 + i)
    [{ id := 1, quantity := 1, price := 100, fee := 0, actualCost := 100, totalCost := 100 }]
    { id := 3, quantity := 0, price := 10, fee := 0, actualCost := 10, totalCost := 0 }
    (by norm_num)
    (by
      intro r hr
      simp at hr
      subst hr
      refine ⟨by norm_num, by rw [abs_of_pos] <;> norm_num, by norm_num,
        by rw [abs_of_pos] <;> norm_num⟩)).1

/-- C6: `setDirection` with an unrecognized value leaves the stored direction
unchanged, raises nothing (the setters are total functions) and notifies no
listener; `setMakerFeeRate`/`setTakerFeeRate` with non-numeric or negative
input leave the stored rate unchanged and notify no listener; on valid
percentage input the stored rate becomes the input divided by 100; and every
setter call preserves the invariant that both rates are `≥ 0`. -/
theorem configSetters_spec (s : Config) (d : String) (hd : d ≠ "long" ∧ d ≠ "short")
    (r : ℚ) (hr : r < 0) (r2 : ℚ) (hr2 : 0 ≤ r2)
    (hmk : 0 ≤ s.makerFeeRate) (htk : 0 ≤ s.takerFeeRate) :
    setDirection s d = (s, none) ∧
    setMakerFeeRate s none = (s, none) ∧
    setMakerFeeRate s (some r) = (s, none) ∧
    setTakerFeeRate s none = (s, none) ∧
    setTakerFeeRate s (some r) = (s, none) ∧
    setMakerFeeRate s (some r2) =
      ({ s with makerFeeRate := r2 / 100 },
        some (notifyListeners s.listeners "makerFeeRate" (CVal.num (r2 / 100)))) ∧
    setTakerFeeRate s (some r2) =
      ({ s with takerFeeRate := r2 / 100 },
        some (notifyListeners s.listeners "takerFeeRate" (CVal.num (r2 / 100)))) ∧
    (∀ x, 0 ≤ (setMakerFeeRate s x).1.makerFeeRate ∧
      0 ≤ (setMakerFeeRate s x).1.takerFeeRate) ∧
    (∀ x, 0 ≤ (setTakerFeeRate s x).1.makerFeeRate ∧
      0 ≤ (setTakerFeeRate s x).1.takerFeeRate) ∧
    (∀ y, 0 ≤ (setDirection s y).1.makerFeeRate ∧
      0 ≤ (setDirection s y).1.takerFeeRate) := by
  refine ⟨by simp [setDirection, hd.1, hd.2], rfl, by simp [setMakerFeeRate, hr], rfl,
    by simp [setTakerFeeRate, hr], by simp [setMakerFeeRate, not_lt.mpr hr2],
    by simp [setTakerFeeRate, not_lt.mpr hr2], ?_, ?_, ?_⟩
  · intro x
    cases x with
    | none => exact ⟨hmk, htk⟩
    | some v =>
      by_cases hv : v < 0
      · simpa [setMakerFeeRate, hv] using ⟨hmk, htk⟩
      · refine ⟨?_, ?_⟩ <;> simp [setMakerFeeRate, hv, htk]
        exact div_nonneg (not_lt.mp hv) (by norm_num)
  · intro x
    cases x with
    | none => exact ⟨hmk, htk⟩
    | some v =>
      by_cases hv : v < 0
      · simpa [setTakerFeeRate, hv] using ⟨hmk, htk⟩
      · refine ⟨?_, ?_⟩ <;> simp [setTakerFeeRate, hv, hmk]
        exact div_nonneg (not_lt.mp hv) (by norm_num)
  · intro y
    by_cases hy1 : y = "long"
    · simpa [setDirection, hy1] using ⟨hmk, htk⟩
    · by_cases hy2 : y = "short"
      · simpa [setDirection, hy1, hy2] using ⟨hmk, htk⟩
      · simpa [setDirection, hy1, hy2] using ⟨hmk, htk⟩

/-- Witness for C6 at concrete inputs (`"sideways"`, `-3`, `4`). -/
theorem configSetters_spec_witness :
    setDirection defaultConfig "sideways" = (defaultConfig, none) ∧
    setMakerFeeRate defaultConfig (some (-3)) = (defaultConfig, none) ∧
    setMakerFeeRate defaultConfig (some 4) =
      ({ defaultConfig with makerFeeRate := 4 / 100 },
        some (notifyListeners defaultConfig.listeners "makerFeeRate" (CVal.num (4 / 100)))) := by
  have h := configSetters_spec defaultConfig "sideways" (by simp) (-3) (by norm_num) 4
    (by norm_num) (by norm_num [defaultConfig]) (by norm_num [defaultConfig])
  exact ⟨h.1, h.2.2.1, h.2.2.2.2.2.1⟩

lemma notifyFrom_calls (key : String) (value : CVal) :
    ∀ (ls : List Listener) (i : ℕ),
      (notifyFrom key value i ls).calls =
        (List.range ls.length).map (fun j => (i + j, key, value))
  | [], i => by simp [notifyFrom]
  | l :: rest, i => by
    have ih := notifyFrom_calls key value rest (i + 1)
    have hfun : (fun j => (i + 1 + j, key, value)) =
        ((fun j => (i + j, key, value)) ∘ Nat.succ) := by
      funext j
      simp only [Function.comp_apply, Prod.mk.injEq, and_true]
      omega
    by_cases hl : l.raises key value <;>
      simp [notifyFrom, hl, ih, List.range_succ_eq_map, List.map_map, hfun]

/-- C7: every successful setter call synchronously produces the notification
of all registered listeners with `(changedKey, newValue)` before returning,
and `notifyListeners` invokes every listener, in registration order, with that
pair — including every listener registered after one that raises (a raising
listener is caught and logged, never propagated: the notification functions
are total and the raiser's index merely lands in the `caught` log). -/
theorem notifyListeners_spec (ls : List Listener) (key : String) (v : CVal)
    (s : Config) (r : ℚ) (hr : 0 ≤ r) (d : String) (hd : d = "long" ∨ d = "short") :
    (notifyListeners ls key v).calls = (List.range ls.length).map (fun i => (i, key, v)) ∧
    (setMakerFeeRate s (some r)).2 =
      some (notifyListeners s.listeners "makerFeeRate" (CVal.num (r / 100))) ∧
    (setTakerFeeRate s (some r)).2 =
      some (notifyListeners s.listeners "takerFeeRate" (CVal.num (r / 100))) ∧
    (setDirection s d).2 = some (notifyListeners s.listeners "direction" (CVal.str d)) := by
  refine ⟨?_, by simp [setMakerFeeRate, not_lt.mpr hr], by simp [setTakerFeeRate, not_lt.mpr hr], ?_⟩
  · simpa using notifyFrom_calls key v ls 0
  · rcases hd with rfl | rfl <;> simp [setDirection]

/-- Witness for C7 with a concrete listener list whose first listener raises. -/
theorem notifyListeners_spec_witness :
    (notifyListeners [{ raises := fun _ _ => true }, { raises := fun _ _ => false }]
        "makerFeeRate" (CVal.num (1 / 50))).calls =
      (List.range ([{ raises := fun _ _ => true },
        { raises := fun _ _ => false }] : List Listener).length).map
        (fun i => (i, "makerFeeRate", CVal.num (1 / 50))) :=
  (notifyListeners_spec [{ raises := fun _ _ => true }, { raises := fun _ _ => false }]
    "makerFeeRate" (CVal.num (1 / 50)) defaultConfig 2 (by norm_num) "long"
    (Or.inl rfl)).1


lemma liq_long_core {op q tm : ℚ} (hq : 0 < q) (htm : 0 < tm) : op - tm / q < op :=
  sub_lt_self _ (div_pos htm hq)

lemma liq_short_core {op q tm : ℚ} (hq : 0 < q) (htm : 0 < tm) : op < op + tm / q :=
  lt_add_of_pos_right _ (div_pos htm hq)

set_option maxHeartbeats 1000000 in
/-- C8: every successful `calculateLiquidation` call returns a liquidation
price strictly below the open price under LONG whenever the total margin is
positive, and strictly above the open price under SHORT (the validated
preconditions `openPrice > 0`, `quantity > 0`, `addMargin ≥ 0` are recovered
from the success of the call itself). -/
theorem calculateLiquidation_invariant (cfg : Config) (lev : JsVal) (op q am : ℚ)
    (custom : Option ℚ) (r : LiquidationResult)
    (h : calculateLiquidation cfg lev (some op) (some q) (some am) custom = Except.ok r) :
    (cfg.direction = Direction.long → 0 < r.totalMargin → r.liquidationPrice < op) ∧
    (cfg.direction = Direction.short → op < r.liquidationPrice) := by
  by_cases hdir : cfg.direction = Direction.long
  · rcases custom with _ | c
    · rcases lev with _ | _ | l
      · simp [calculateLiquidation, validateRequiredFields, isEmptyVal,
          JsVal.isValidNumber] at h
      · simp [calculateLiquidation, validateRequiredFields, isEmptyVal,
          JsVal.isValidNumber] at h
      · simp only [calculateLiquidation, validateRequiredFields, isEmptyVal,
          Option.isNone_some, JsVal.isValidNumber, JsVal.isPositive, jsNumOr0,
          calculateLongLiquidationPrice, calculateShortLiquidationPrice,
          Bool.true_and, Option.getD_some, Option.isSome_none, Option.isSome_some,
          Bool.false_and, Bool.or_false, Bool.false_or, Bool.false_eq_true,
          if_false, if_true, hdir] at h
        split_ifs at h with h1 h2 h3 h4 h5 h6
        rw [Except.ok.injEq] at h
        subst h
        have hq0 : 0 < q := by simpa [isPositive] using h3
        refine ⟨fun _ htm => liq_long_core hq0 htm, fun hd2 => ?_⟩
        rw [hdir] at hd2
        exact Direction.noConfusion hd2
    · by_cases hc : 0 < c
      · simp only [calculateLiquidation, validateRequiredFields, isEmptyVal,
          Option.isNone_some, jsNumOr0, decide_eq_false (not_le.mpr hc),
          calculateLongLiquidationPrice, calculateShortLiquidationPrice,
          Bool.true_and, Option.getD_some, Option.isSome_some, Bool.false_and,
          Bool.or_false, Bool.false_or, Bool.false_eq_true, if_false, if_true,
          hc, hdir] at h
        split_ifs at h with h2 h3 h4 h4b h5 h6
        rw [Except.ok.injEq] at h
        subst h
        have hq0 : 0 < q := by simpa [isPositive] using h3
        refine ⟨fun _ htm => liq_long_core hq0 htm, fun hd2 => ?_⟩
        rw [hdir] at hd2
        exact Direction.noConfusion hd2
      · rcases lev with _ | _ | l
        · simp [calculateLiquidation, validateRequiredFields, isEmptyVal,
            JsVal.isValidNumber, decide_eq_true (not_lt.mp hc)] at h
        · simp [calculateLiquidation, validateRequiredFields, isEmptyVal,
            JsVal.isValidNumber, decide_eq_true (not_lt.mp hc)] at h
        · simp only [calculateLiquidation, validateRequiredFields, isEmptyVal,
            Option.isNone_some, JsVal.isValidNumber, JsVal.isPositive, jsNumOr0,
            decide_eq_true (not_lt.mp hc), calculateLongLiquidationPrice,
            calculateShortLiquidationPrice, Bool.true_and, Option.getD_some,
            Option.isSome_some, Bool.false_and, Bool.or_false, Bool.false_or,
            Bool.false_eq_true, if_false, if_true, hc, hdir] at h
          split_ifs at h with h1 h2 h3 h4 h4b h5 h6
          rw [Except.ok.injEq] at h
          subst h
          have hq0 : 0 < q := by simpa [isPositive] using h3
          refine ⟨fun _ htm => liq_long_core hq0 htm, fun hd2 => ?_⟩
          rw [hdir] at hd2
          exact Direction.noConfusion hd2
  · rcases custom with _ | c
    · rcases lev with _ | _ | l
      · simp [calculateLiquidation, validateRequiredFields, isEmptyVal,
          JsVal.isValidNumber] at h
      · simp [calculateLiquidation, validateRequiredFields, isEmptyVal,
          JsVal.isValidNumber] at h
      · simp only [calculateLiquidation, validateRequiredFields, isEmptyVal,
          Option.isNone_some, JsVal.isValidNumber, JsVal.isPositive, jsNumOr0,
          calculateLongLiquidationPrice, calculateShortLiquidationPrice,
          Bool.true_and, Option.getD_some, Option.isSome_none, Option.isSome_some,
          Bool.false_and, Bool.or_false, Bool.false_or, Bool.false_eq_true,
          if_false, if_true, hdir] at h
        split_ifs at h with h1 h2 h3 h4 h5 h6
        rw [Except.ok.injEq] at h
        subst h
        have hl0 : 0 < l := by simpa using h1
        have hop : 0 < op := by simpa [isPositive] using h2
        have hq0 : 0 < q := by simpa [isPositive] using h3
        have ham : 0 ≤ am := by simpa [isNonNegative] using h4
        have htm : 0 < q * op / l + am :=
          add_pos_of_pos_of_nonneg (div_pos (mul_pos hq0 hop) hl0) ham
        exact ⟨fun hd2 => absurd hd2 hdir, fun _ => liq_short_core hq0 htm⟩
    · by_cases hc : 0 < c
      · simp only [calculateLiquidation, validateRequiredFields, isEmptyVal,
          Option.isNone_some, jsNumOr0, decide_eq_false (not_le.mpr hc),
          calculateLongLiquidationPrice, calculateShortLiquidationPrice,
          Bool.true_and, Option.getD_some, Option.isSome_some, Bool.false_and,
          Bool.or_false, Bool.false_or, Bool.false_eq_true, if_false, if_true,
          hc, hdir] at h
        split_ifs at h with h2 h3 h4 h4b h5 h6
        rw [Except.ok.injEq] at h
        subst h
        have hq0 : 0 < q := by simpa [isPositive] using h3
        have ham : 0 ≤ am := by simpa [isNonNegative] using h4
        have htm : 0 < c + am := add_pos_of_pos_of_nonneg hc ham
        exact ⟨fun hd2 => absurd hd2 hdir, fun _ => liq_short_core hq0 htm⟩
      · rcases lev with _ | _ | l
        · simp [calculateLiquidation, validateRequiredFields, isEmptyVal,
            JsVal.isValidNumber, decide_eq_true (not_lt.mp hc)] at h
        · simp [calculateLiquidation, validateRequiredFields, isEmptyVal,
            JsVal.isValidNumber, decide_eq_true (not_lt.mp hc)] at h
        · simp only [calculateLiquidation, validateRequiredFields, isEmptyVal,
            Option.isNone_some, JsVal.isValidNumber, JsVal.isPositive, jsNumOr0,
            decide_eq_true (not_lt.mp hc), calculateLongLiquidationPrice,
            calculateShortLiquidationPrice, Bool.true_and, Option.getD_some,
            Option.isSome_some, Bool.false_and, Bool.or_false, Bool.false_or,
            Bool.false_eq_true, if_false, if_true, hc, hdir] at h
          split_ifs at h with h1 h2 h3 h4 h4b h5 h6
          rw [Except.ok.injEq] at h
          subst h
          have hl0 : 0 < l := by simpa using h1
          have hop : 0 < op := by simpa [isPositive] using h2
          have hq0 : 0 < q := by simpa [isPositive] using h3
          have ham : 0 ≤ am := by simpa [isNonNegative] using h4
          have htm : 0 < q * op / l + am :=
            add_pos_of_pos_of_nonneg (div_pos (mul_pos hq0 hop) hl0) ham
          exact ⟨fun hd2 => absurd hd2 hdir, fun _ => liq_short_core hq0 htm⟩

/-- Witness for C8 at the concrete successful call
`calculateLiquidation(10, 100, 1, 0)` under the default (LONG) config. -/
theorem calculateLiquidation_invariant_witness :
    (defaultConfig.direction = Direction.long →
        0 < (LiquidationResult.mk 90 10 10 false).totalMargin →
        (LiquidationResult.mk 90 10 10 false).liquidationPrice < 100) ∧
    (defaultConfig.direction = Direction.short →
        (100 : ℚ) < (LiquidationResult.mk 90 10 10 false).liquidationPrice) :=
  calculateLiquidation_invariant defaultConfig (JsVal.num 10) 100 1 0 none
    (LiquidationResult.mk 90 10 10 false) (by
      have e1 : isExtremeValue (some (100 : ℚ)) = false :=
        isExtremeValue_some_false (by rw [abs_of_pos] <;> norm_num)
      have e2 : isExtremeValue (some (1 : ℚ)) = false :=
        isExtremeValue_some_false (by rw [abs_of_pos] <;> norm_num)
      have e3 : isExtremeValue (some (0 : ℚ)) = false := by simp [isExtremeValue]
      simp [calculateLiquidation, validateRequiredFields, isEmptyVal, isPositive,
        isNonNegative, calculateLongLiquidationPrice, jsNumOr0, jsLt, jsGt,
        JsVal.toNumber, JsVal.isValidNumber, JsVal.isPositive, defaultConfig,
        e1, e2, e3]
      norm_num)

/-- Counterexample to C9: `id` is `Date.now()`, so two `addPosition` calls
within the same millisecond (both observing clock value 1000) produce two
records with the SAME id — ids are neither unique nor strictly increasing. -/
theorem addPosition_id_counterexample :
    ((addPosition defaultConfig 1000 [] (some 2) (some 50)).toOption.map (fun pr =>
      (addPosition defaultConfig 1000 pr.1 (some 3) (some 60)).toOption.map (fun pr2 =>
        pr2.1.map FillRecord.id))) = some (some [1000, 1000]) ∧
    ¬ ([1000, 1000] : List ℕ).Nodup := by
  have A := addPosition_ok defaultConfig 1000 [] 2 50 (by norm_num)
    (by rw [abs_of_pos] <;> norm_num) (by norm_num) (by rw [abs_of_pos] <;> norm_num)
  have B := addPosition_ok defaultConfig 1000
    [{ id := 1000, quantity := 2, price := 50,
       fee := 50 * defaultConfig.makerFeeRate,
       actualCost := 50 + 50 * defaultConfig.makerFeeRate,
       totalCost := 2 * (50 + 50 * defaultConfig.makerFeeRate) }] 3 60
    (by norm_num) (by rw [abs_of_pos] <;> norm_num) (by norm_num)
    (by rw [abs_of_pos] <;> norm_num)
  refine ⟨?_, by decide⟩
  rw [A]
  simp [Except.toOption, B]

/-- C9 as amended: ids equal the clock value observed at creation, so across
successive `addPosition` calls they are non-decreasing whenever the
millisecond clock is non-decreasing, and they are unique only when every call
observes a strictly larger clock value than all earlier ids. -/
theorem addPosition_id_monotone (cfg : Config) (now : ℕ) (ps : List FillRecord)
    (q p : ℚ) (hq : 0 < q) (ebq : |q| ≤ 10 ^ 15) (hp : 0 < p) (ebp : |p| ≤ 10 ^ 15) :
    ∀ l rec, addPosition cfg now ps (some q) (some p) = Except.ok (l, rec) →
      rec.id = now ∧ l = ps ++ [rec] ∧
      ((∀ r ∈ ps, r.id ≤ now) → (ps.map FillRecord.id).Sorted (· ≤ ·) →
        (l.map FillRecord.id).Sorted (· ≤ ·)) ∧
      ((∀ r ∈ ps, r.id < now) → (ps.map FillRecord.id).Sorted (· < ·) →
        (l.map FillRecord.id).Sorted (· < ·) ∧ (l.map FillRecord.id).Nodup) := by
  intro l rec h
  rw [addPosition_ok cfg now ps q p hq ebq hp ebp] at h
  obtain ⟨hl, hrec⟩ := Prod.mk.injEq .. |>.mp (Except.ok.inj h)
  subst hrec
  subst hl
  refine ⟨rfl, rfl, ?_, ?_⟩
  · intro hmono hs
    rw [List.map_append]
    refine List.pairwise_append.mpr ⟨hs, List.sorted_singleton _, ?_⟩
    intro a ha b hb
    obtain ⟨r, hr, rfl⟩ := List.mem_map.mp ha
    simp only [List.map_cons, List.map_nil, List.mem_singleton] at hb
    subst hb
    exact hmono r hr
  · intro hstrict hs
    have hsorted : List.Sorted (· < ·)
        ((ps ++ ([{ id := now, quantity := q, price := p,
                    fee := p * cfg.makerFeeRate,
                    actualCost := p + p * cfg.makerFeeRate,
                    totalCost := q * (p + p * cfg.makerFeeRate) }] :
            List FillRecord)).map FillRecord.id) := by
      rw [List.map_append]
      refine List.pairwise_append.mpr ⟨hs, List.sorted_singleton _, ?_⟩
      intro a ha b hb
      obtain ⟨r, hr, rfl⟩ := List.mem_map.mp ha
      simp only [List.map_cons, List.map_nil, List.mem_singleton] at hb
      subst hb
      exact hstrict r hr
    exact ⟨hsorted, hsorted.nodup⟩

/-- Witness for the amended C9 at a concrete insertion. -/
theorem addPosition_id_monotone_witness :
    ({ id := 5, quantity := 1, price := 2, fee := 2 * defaultConfig.makerFeeRate,
       actualCost := 2 + 2 * defaultConfig.makerFeeRate,
       totalCost := 1 * (2 + 2 * defaultConfig.makerFeeRate) } : FillRecord).id = 5 :=
  (addPosition_id_monotone defaultConfig 5 [] 1 2 (by norm_num)
    (by rw [abs_of_pos] <;> norm_num) (by norm_num) (by rw [abs_of_pos] <;> norm_num)
    ([] ++ [{ id := 5, quantity := 1, price := 2, fee := 2 * defaultConfig.makerFeeRate,
              actualCost := 2 + 2 * defaultConfig.makerFeeRate,
              totalCost := 1 * (2 + 2 * defaultConfig.makerFeeRate) }])
    { id := 5, quantity := 1, price := 2, fee := 2 * defaultConfig.makerFeeRate,
      actualCost := 2 + 2 * defaultConfig.makerFeeRate,
      totalCost := 1 * (2 + 2 * defaultConfig.makerFeeRate) }
    (addPosition_ok defaultConfig 5 [] 1 2 (by norm_num)
      (by rw [abs_of_pos] <;> norm_num) (by norm_num)
      (by rw [abs_of_pos] <;> norm_num))).1

/-- Counterexample to C10: with a positive custom initial margin and leverage
ABSENT (JS `undefined`), the call succeeds but `isWarning` is `false`, because
both JS comparisons `undefined < 1` and `undefined > 125` evaluate to `false`
(`undefined` coerces to `NaN`), contradicting the claim that `isWarning` is
true whenever leverage is null/absent. -/
theorem calculateLiquidation_isWarning_counterexample :
    calculateLiquidation defaultConfig JsVal.vundef (some 100) (some 1) (some 0) (some 10) =
      Except.ok { liquidationPrice := 90, initialMargin := 10, totalMargin := 10,
                  isWarning := false } := by
  have e1 : isExtremeValue (some (100 : ℚ)) = false :=
    isExtremeValue_some_false (by rw [abs_of_pos] <;> norm_num)
  have e2 : isExtremeValue (some (1 : ℚ)) = false :=
    isExtremeValue_some_false (by rw [abs_of_pos] <;> norm_num)
  have e3 : isExtremeValue (some (0 : ℚ)) = false := by simp [isExtremeValue]
  have e4 : isExtremeValue (some (10 : ℚ)) = false :=
    isExtremeValue_some_false (by rw [abs_of_pos] <;> norm_num)
  simp [calculateLiquidation, validateRequiredFields, isEmptyVal, isPositive,
    isNonNegative, calculateLongLiquidationPrice, jsNumOr0, jsLt, jsGt,
    JsVal.toNumber, JsVal.isValidNumber, JsVal.isPositive, defaultConfig,
    e1, e2, e3, e4]
  norm_num

/-- C10 as amended: with a positive custom initial margin and valid
`openPrice`, `quantity`, `addMargin`, the call succeeds without validating
leverage at all, and `isWarning` is computed from the raw leverage argument
under JS comparison semantics: for a number `x` it is `x < 1 ∨ x > 125`, it is
`true` for `null` (which coerces to `0`), but it is `false` for
absent/`undefined` leverage (comparisons against `NaN` are false). -/
theorem calculateLiquidation_isWarning_amended (cfg : Config) (lev : JsVal)
    (op q am c : ℚ) (hop : 0 < op) (eop : |op| ≤ 10 ^ 15) (hq : 0 < q)
    (ebq : |q| ≤ 10 ^ 15) (ham : 0 ≤ am) (eam : |am| ≤ 10 ^ 15) (hc : 0 < c)
    (ec : |c| ≤ 10 ^ 15)
    (hlp : 0 < (if cfg.direction = Direction.long then op - (c + am) / q
      else op + (c + am) / q)) :
    calculateLiquidation cfg lev (some op) (some q) (some am) (some c) =
      Except.ok
        { liquidationPrice :=
            if cfg.direction = Direction.long then op - (c + am) / q
            else op + (c + am) / q,
          initialMargin := c, totalMargin := c + am,
          isWarning := jsLt lev 1 || jsGt lev 125 } ∧
    (jsLt JsVal.vnull 1 || jsGt JsVal.vnull 125) = true ∧
    (jsLt JsVal.vundef 1 || jsGt JsVal.vundef 125) = false ∧
    (∀ x : ℚ, (jsLt (JsVal.num x) 1 || jsGt (JsVal.num x) 125) =
      (decide (x < 1) || decide (125 < x))) := by
  have hnc : decide (c ≤ 0) = false := decide_eq_false (not_le.mpr hc)
  refine ⟨?_, by norm_num [jsLt, jsGt, JsVal.toNumber], rfl, fun x => rfl⟩
  by_cases hdir : cfg.direction = Direction.long
  · have hlp2 : 0 < op - (c + am) / q := by simpa [hdir] using hlp
    simp [calculateLiquidation, validateRequiredFields, isEmptyVal,
      isPositive_some_true hop, isPositive_some_true hq,
      isNonNegative_some_true ham, isNonNegative_some_true hc.le,
      isExtremeValue_some_false eop, isExtremeValue_some_false ebq,
      isExtremeValue_some_false eam, isExtremeValue_some_false ec,
      hnc, hdir, calculateLongLiquidationPrice, if_pos hc, not_le.mpr hlp2]
  · have hlp2 : 0 < op + (c + am) / q := by simpa [hdir] using hlp
    simp [calculateLiquidation, validateRequiredFields, isEmptyVal,
      isPositive_some_true hop, isPositive_some_true hq,
      isNonNegative_some_true ham, isNonNegative_some_true hc.le,
      isExtremeValue_some_false eop, isExtremeValue_some_false ebq,
      isExtremeValue_some_false eam, isExtremeValue_some_false ec,
      hnc, hdir, calculateShortLiquidationPrice, if_pos hc, not_le.mpr hlp2]

/-- Witness for the amended C10 at null leverage. -/
theorem calculateLiquidation_isWarning_amended_witness :
    calculateLiquidation defaultConfig JsVal.vnull (some 100) (some 1) (some 0) (some 10) =
      Except.ok
        { liquidationPrice :=
            if defaultConfig.direction = Direction.long then (100 : ℚ) - (10 + 0) / 1
            else (100 : ℚ) + (10 + 0) / 1,
          initialMargin := 10, totalMargin := 10 + 0,
          isWarning := jsLt JsVal.vnull 1 || jsGt JsVal.vnull 125 } :=
  (calculateLiquidation_isWarning_amended defaultConfig JsVal.vnull 100 1 0 10
    (by norm_num) (by rw [abs_of_pos] <;> norm_num) (by norm_num)
    (by rw [abs_of_pos] <;> norm_num) (by norm_num) (by norm_num)
    (by norm_num) (by rw [abs_of_pos] <;> norm_num)
    (by norm_num [defaultConfig])).1
